import Mathlib

/-!
Verification of `src/tools/Sea_Day.py` (marine-facies-agent).

The Python module is embedded shallowly:

* JSON values decoded by `json.loads` are modelled by the inductive type `J`.
  Python `None` (JSON `null`) is `J.null`; Python `bool` is `J.bool` (note that
  in Python `isinstance(True, int)` holds and `float(True) = 1.0`, which the
  embedding reproduces where the source relies on it); Python `int`/`float`
  numbers are modelled exactly as rationals `J.num`; dictionaries are
  association lists in insertion order (`json.loads` preserves key order and
  keeps keys unique).
* External effects (HTTP fetches, the timezone database, `date.today()`) are
  supplied by an explicit environment `Env`; each fetch is an
  `Except String J` value: `.error e` models the call raising an exception
  whose formatted text (`f"ClassName: message"`) is `e`.
* A Python function that can raise an uncaught exception is embedded as an
  `Option`-returning function; `none` models the exception propagating.
-/

/-- JSON values as produced by `json.loads`. -/
inductive J : Type where
  | null : J
  | bool : Bool → J
  | num : ℚ → J
  | str : String → J
  | arr : List J → J
  | obj : List (String × J) → J

/-- Python truthiness (`bool(x)`) of a decoded JSON value. -/
def jTruthy : J → Bool
  | J.null => false
  | J.bool b => b
  | J.num q => decide (q ≠ 0)
  | J.str s => decide (s ≠ "")
  | J.arr xs => !xs.isEmpty
  | J.obj fs => !fs.isEmpty

/-- `d.get(k)` on an object (`none` both for a missing key and models the
candidate receiver not being a dict; theorems constrain receivers to objects
where the source requires them). -/
def jGet : J → String → Option J
  | J.obj fs, k => fs.lookup k
  | _, _ => none

/-- Python `str(x)` of a decoded JSON value, used only to format error
messages in failure branches.  Numeric and container rendering is
abbreviated; no verified claim inspects these strings. -/
def jText : J → String
  | J.null => "None"
  | J.bool b => if b then "True" else "False"
  | J.num q => toString q
  | J.str s => s
  | J.arr _ => "[...]"
  | J.obj _ => "{...}"

/-- Wrap an optional float back into a JSON value (Python `None` → `null`). -/
def jOfQ : Option ℚ → J
  | some q => J.num q
  | none => J.null

/-- `_pick_value(param_obj)` (Sea_Day.py lines 153-161).  The argument is the
result of `h.get(param)`: `none` when the key is absent (Python `None`).
`isinstance(x, (int, float))` accepts Python booleans (`float(True) = 1.0`).
For a non-empty dict the code reads `param_obj.get(next(iter(param_obj)))`,
i.e. the value of the first key in insertion order, which for a dict with
unique keys is the first entry's value. -/
def pickValue : Option J → Option ℚ
  | some (J.num q) => some q
  | some (J.bool b) => some (if b then 1 else 0)
  | some (J.obj ((_, J.num q) :: _)) => some q
  | some (J.obj ((_, J.bool b) :: _)) => some (if b then 1 else 0)
  | _ => none

/-- `_safe_minmax(vals)` (Sea_Day.py lines 147-150): `None` for an empty
list, otherwise the dict mapping `"min"`/`"max"` to `min(vals)`/`max(vals)`. -/
def safeMinmax : List ℚ → Option J
  | [] => none
  | v :: vs => some (J.obj [("min", J.num (vs.foldl min v)), ("max", J.num (vs.foldl max v))])

/-- `x == "s"` for a decoded JSON value `x` and a Python string literal
(`status != "OK"` in the source): true only when `x` is that string. -/
def jEqStr (j : J) (s : String) : Bool :=
  match j with
  | J.str t => t == s
  | _ => false

/-- `x is None` for a value obtained from `dict.get` (JSON `null` decodes to
Python `None`). -/
def jIsNull : J → Bool
  | J.null => true
  | _ => false

/-- Python `str.strip()`: drop leading and trailing whitespace. -/
def pyStrip (s : String) : String :=
  String.mk (((s.data.dropWhile Char.isWhitespace).reverse.dropWhile Char.isWhitespace).reverse)

/-- `float(x)` on a decoded JSON value.  Python also parses numeric strings;
that case is not modelled (no verified scenario feeds a string to `float`),
so it maps to `none` (a raise) like the other non-numeric shapes. -/
def pyFloat : J → Option ℚ
  | J.num q => some q
  | J.bool b => some (if b then 1 else 0)
  | _ => none

/-- `_google_geocode_place(place, api_key, ...)` (Sea_Day.py lines 53-111).
`resp` is the outcome of the single `_http_get_json` call: `.error e` models
the call raising an exception rendered as `e`.  The result is `none` when the
Python code would let an exception escape (attribute/index errors on
unexpectedly-shaped payloads), otherwise `some` of the returned dict. -/
def googleGeocodePlace (place apiKey : String) (resp : Except String J) : Option J :=
  let place := pyStrip place
  if place = "" then
    some (J.obj [("ok", J.bool false), ("error", J.str "place is required")])
  else if apiKey = "" then
    some (J.obj [("ok", J.bool false), ("error", J.str "Missing GOOGLE_MAPS_API_KEY env var")])
  else
    match resp with
    | .error e =>
      some (J.obj [("ok", J.bool false), ("error", J.str ("HTTP/parse error: " ++ e))])
    | .ok data =>
      match data with
      | J.obj dfs =>
        let status := (dfs.lookup "status").getD (J.str "UNKNOWN")
        if !(jEqStr status "OK") then
          let em := (dfs.lookup "error_message").getD J.null
          let errv := if jTruthy em then em else J.str ("Geocoding failed: " ++ jText status)
          some (J.obj [("ok", J.bool false), ("query", J.str place), ("status", status),
            ("error", errv)])
        else
          let results := (dfs.lookup "results").getD J.null
          let results := if jTruthy results then results else J.arr []
          if !(jTruthy results) then
            some (J.obj [("ok", J.bool false), ("query", J.str place), ("status", status),
              ("error", J.str "No results")])
          else
            match results with
            | J.arr (top :: _) =>
              match top with
              | J.obj tfs =>
                let geometry := (tfs.lookup "geometry").getD (J.obj [])
                let geometry := if jTruthy geometry then geometry else J.obj []
                match geometry with
                | J.obj gfs =>
                  let location := (gfs.lookup "location").getD (J.obj [])
                  let location := if jTruthy location then location else J.obj []
                  match location with
                  | J.obj lfs =>
                    let lat := (lfs.lookup "lat").getD J.null
                    let lng := (lfs.lookup "lng").getD J.null
                    if jIsNull lat || jIsNull lng then
                      some (J.obj [("ok", J.bool false), ("query", J.str place),
                        ("status", status), ("error", J.str "Missing lat/lng in response")])
                    else
                      some (J.obj [("ok", J.bool true), ("lat", lat), ("lng", lng),
                        ("formatted_address", (tfs.lookup "formatted_address").getD J.null)])
                  | _ => none
                | _ => none
              | _ => none
            | _ => none
      | _ => none

/-!
## Timezone model (for `_day_range_to_utc_timestamps`, Sea_Day.py lines 40-50)

`zoneinfo.ZoneInfo` is library code, not part of the repository; it is
modelled faithfully to its documented (PEP 495) semantics.  A timezone is a
base UTC offset plus a finite list of transitions `(τ, o)`: from UTC instant
`τ` on, the offset (in seconds) is `o`.  All quantities are integer seconds
(tzdata offsets are integral seconds, so `int(dt.timestamp())` is exact).

A *naive* local time is its wall-clock value in seconds (`w`); local midnight
of the parsed date is `w0` and `day_start_local + timedelta(days=1)` is naive
datetime arithmetic, i.e. exactly `w0 + 86400`.  `datetime.replace(tzinfo=tz)`
followed by `.timestamp()` resolves a naive wall time with `fold=0`: at a
transition from offset `p` to offset `o` at UTC instant `τ`, wall times below
`τ + max p o` resolve with the pre-transition offset `p` (this covers both the
skipped wall times of a gap and the first occurrence of the repeated wall
times of a fold), wall times from `τ + max p o` on resolve with `o`.
-/

/-- Offset in effect at UTC instant `t`, given base offset `p` and the
transition list (sorted by instant). -/
def offAtUtc (p : ℤ) : List (ℤ × ℤ) → ℤ → ℤ
  | [], _ => p
  | (τ, o) :: rest, t => if t < τ then p else offAtUtc o rest t

/-- Offset used to resolve a naive wall-clock time `w` with `fold=0`
(PEP 495, as implemented by `zoneinfo`): the offset of the last transition
`(τ, o)` from previous offset `p` with `τ + max p o ≤ w`, else the offset
in force before it. -/
def wallOff (p : ℤ) : List (ℤ × ℤ) → ℤ → ℤ
  | [], _ => p
  | (τ, o) :: rest, w => if w < τ + max p o then p else wallOff o rest w

/-- `int(datetime.replace(tzinfo=tz).astimezone(UTC).timestamp())` for the
naive wall-clock time `w`: the UTC instant it resolves to. -/
def localize (p : ℤ) (l : List (ℤ × ℤ)) (w : ℤ) : ℤ :=
  w - wallOff p l w

/-- `_day_range_to_utc_timestamps` (Sea_Day.py lines 40-50) with the date
abstracted to `w0`, the naive wall-clock seconds of the parsed date's local
midnight: `(start_utc, end_utc)` where the end is the next local midnight
(naive `+ timedelta(days=1)` = `w0 + 86400`), both resolved through the
timezone. -/
def dayRangeToUtc (p : ℤ) (l : List (ℤ × ℤ)) (w0 : ℤ) : ℤ × ℤ :=
  (localize p l w0, localize p l (w0 + 86400))

/-- Transition instants strictly increase (true of every tzdata zone). -/
def sortedT : List (ℤ × ℤ) → Bool
  | [] => true
  | [_] => true
  | (τ, _) :: (τ2, o2) :: rest => decide (τ < τ2) && sortedT ((τ2, o2) :: rest)

/-- The wall time `w` is not strictly inside a skipped-clock gap of the zone:
no transition from `p` to a larger offset `o` at instant `τ` has
`τ + p < w < τ + o`.  (Both local midnights of every real `(date, zone)` pair
with a representable local day satisfy this; midnights falling exactly on a
gap boundary — e.g. zones that skip a whole calendar day — are still
covered.) -/
def gapFree (p : ℤ) : List (ℤ × ℤ) → ℤ → Bool
  | [], _ => true
  | (τ, o) :: rest, w => !(decide (p < o) && decide (τ + p < w) && decide (w < τ + o)) && gapFree o rest w

/-!
## `Tools.sea_day` (Sea_Day.py lines 164-295)

External effects are supplied by an `Env`: the two credentials (already
stripped, as in `Tools.__init__`), today's ISO date, the outcome of
`_day_range_to_utc_timestamps` per date string (`.error` models the call
raising), the decoded payload or raised-exception text of each of the three
HTTP requests made in one invocation, and the outcome of the best-effort
local-time rendering (`fromisoformat`/`astimezone`/`strftime` chain, `none`
models that `try` block raising).  Exception texts stand for the Python
`f"{e.__class__.__name__}: {e}"` rendering.
-/

structure Env where
  stormKey : String
  googleKey : String
  today : String
  ranges : String → String → Except String (ℤ × ℤ)
  geocodeResp : Except String J
  weatherResp : Except String J
  tideResp : Except String J
  convertLocal : String → String → Option String

/-- Time-range resolution with the single current-date retry
(Sea_Day.py lines 190-202): on success also reports the date string the rest
of the invocation uses.  The first exception's message is discarded, exactly
as in the source (`except Exception:` without a binder). -/
def resolveRetry (env : Env) (date tz : String) : Except String (String × ℤ × ℤ) :=
  match env.ranges date tz with
  | .ok r => .ok (date, r)
  | .error _ =>
    match env.ranges env.today tz with
    | .ok r => .ok (env.today, r)
    | .error e2 => .error e2

/-- One iteration of the hourly loop (Sea_Day.py lines 246-281) on entry `h`:
the assembled hourly record plus the four extracted scalars (in source order
tide, swellHeight, waterTemperature, windSpeed).  `none` models `h` not being
a dict, where `h.get("time")` would raise.  The local-time rendering is
attempted only for a truthy `time` value and only a string can reach
`fromisoformat`; any failure inside that `try` keeps the raw value. -/
def processHour (conv : String → String → Option String) (tz : String) (h : J) :
    Option (J × Option ℚ × Option ℚ × Option ℚ × Option ℚ) :=
  match h with
  | J.obj hf =>
    let timeJ := (hf.lookup "time").getD J.null
    let localJ :=
      match timeJ with
      | J.str s => if s = "" then timeJ else
          match conv tz s with
          | some t => J.str t
          | none => timeJ
      | _ => timeJ
    let tide := pickValue (hf.lookup "tide")
    let wave := pickValue (hf.lookup "swellHeight")
    let wt := pickValue (hf.lookup "waterTemperature")
    let wind := pickValue (hf.lookup "windSpeed")
    some (J.obj [("time_local", localJ), ("time_utc", timeJ), ("tide", jOfQ tide),
      ("swellHeight", jOfQ wave), ("waterTemperature", jOfQ wt), ("windSpeed", jOfQ wind)],
      tide, wave, wt, wind)
  | _ => none

/-- The hourly loop over a list of hour entries: hourly records in order plus
the accumulated non-missing swellHeight, waterTemperature and windSpeed
values (`wave_vals`, `water_temp_vals`, `wind_vals`; the extracted tide value
is placed in the record but never accumulated).  `none` models the loop
raising on some entry. -/
def loopHours (conv : String → String → Option String) (tz : String) :
    List J → Option (List J × List ℚ × List ℚ × List ℚ)
  | [] => some ([], [], [], [])
  | h :: hs =>
    match processHour conv tz h with
    | none => none
    | some (rec, _, wave, wt, wind) =>
      match loopHours conv tz hs with
      | none => none
      | some (recs, waves, wts, winds) =>
        some (rec :: recs,
          (match wave with | some v => v :: waves | none => waves),
          (match wt with | some v => v :: wts | none => wts),
          (match wind with | some v => v :: winds | none => winds))

/-- `hours = weather.get("hours") or []` followed by the loop
(Sea_Day.py lines 240-281).  `none` when `weather` is not a dict
(`weather.get` raises) or when a truthy non-list `hours` value makes the
iteration raise. -/
def buildHours (conv : String → String → Option String) (tz : String) (w : J) :
    Option (List J × List ℚ × List ℚ × List ℚ) :=
  match w with
  | J.obj wfs =>
    let hoursRaw := (wfs.lookup "hours").getD J.null
    let hoursRaw := if jTruthy hoursRaw then hoursRaw else J.arr []
    match hoursRaw with
    | J.arr hs => loopHours conv tz hs
    | _ => none
  | _ => none

/-- Stages of `sea_day` from the weather fetch on (Sea_Day.py lines 222-295):
`date` is the date string actually in use and `r` the resolved UTC range. -/
def seaDayWeather (env : Env) (date tz : String) (r : ℤ × ℤ) (la lo : ℚ) : Option J :=
  match env.weatherResp with
  | .error e =>
    some (J.obj [("ok", J.bool false), ("stage", J.str "stormglass_weather"),
      ("error", J.str e)])
  | .ok w =>
    let extremes :=
      match env.tideResp with
      | .ok t => t
      | .error e => J.obj [("error", J.str e), ("data", J.null)]
    match buildHours env.convertLocal tz w with
    | none => none
    | some (hourly, waves, wts, winds) =>
      some (J.obj [
        ("ok", J.bool true),
        ("query", J.obj [("date", J.str date), ("timezone", J.str tz)]),
        ("location", J.obj [("lat", J.num la), ("lng", J.num lo)]),
        ("range_utc", J.obj [("start", J.num r.1), ("end", J.num r.2)]),
        ("summary", J.obj [
          ("swellHeight", (safeMinmax waves).getD J.null),
          ("waterTemperature", (safeMinmax wts).getD J.null),
          ("windSpeed", (safeMinmax winds).getD J.null)]),
        ("hourly", J.arr hourly),
        ("tide_extremes", extremes),
        ("raw", J.obj [("stormglass_weather_meta", (jGet w "meta").getD J.null)])])

/-- Stages of `sea_day` from geocoding on (Sea_Day.py lines 204-295). -/
def seaDayGeo (env : Env) (date place tz : String) (r : ℤ × ℤ) : Option J :=
  match googleGeocodePlace place env.googleKey env.geocodeResp with
  | none => none
  | some gj =>
    if !(jTruthy ((jGet gj "ok").getD J.null)) then
      some (J.obj [("ok", J.bool false), ("stage", J.str "geocoding"),
        ("error", (jGet gj "error").getD (J.str "Geocoding failed")),
        ("geocode", gj)])
    else
      match pyFloat ((jGet gj "lat").getD J.null), pyFloat ((jGet gj "lng").getD J.null) with
      | some la, some lo => seaDayWeather env date tz r la lo
      | _, _ => none

/-- `Tools.sea_day(date, place, timezone)` (Sea_Day.py lines 169-295).
`none` models the call raising an uncaught exception; `some` is the returned
dict.  (`timeout_sec` only parametrises the HTTP calls, which the `Env`
already abstracts.) -/
def seaDay (env : Env) (date place tz : String) : Option J :=
  let date := pyStrip date
  let date := if date = "" then env.today else date
  if env.stormKey = "" then
    some (J.obj [("ok", J.bool false), ("error", J.str "Missing STORMGLASS_API_KEY env var")])
  else
    match resolveRetry env date tz with
    | .error e =>
      some (J.obj [("ok", J.bool false), ("stage", J.str "time_range"), ("error", J.str e)])
    | .ok (d2, r) => seaDayGeo env d2 place tz r

/-- Field lookup on an optional result (`none` when the call raised, the
result is not a dict, or the field is absent). -/
def oGet (o : Option J) (k : String) : Option J :=
  match o with
  | some j => jGet j k
  | none => none

/-!
## Claims about `_pick_value` (C1, C10)
-/

/-- C1 counterexample: the claim says `extractScalar` returns nothing when
the input is non-numeric (and not a non-empty mapping, absent, or null), but
the source tests `isinstance(param_obj, (int, float))`, which Python booleans
satisfy: `_pick_value(True) = float(True) = 1.0`, not nothing.  A JSON `true`
is not a number, so the claim as stated is false. -/
theorem pick_value_nonnumeric_cex :
    ¬ (∀ j : J, (∀ q : ℚ, j ≠ J.num q) →
        (∀ e : List (String × J), e ≠ [] → j ≠ J.obj e) →
        pickValue (some j) = none) := by
  intro h
  have hb := h (J.bool true) (fun q hq => J.noConfusion hq)
    (fun e he hj => J.noConfusion hj)
  simp [pickValue] at hb

/-- C1 amended: `extractScalar` returns a plain number unchanged, returns the
first entry's value of a non-empty mapping when that value is a number,
returns nothing for an absent input, null, an empty mapping, a string, an
array, or a mapping whose first value is none of these — except that Python
booleans count as numbers: a boolean input (or first mapping value) `b` yields
`float(b)` (True ↦ 1.0, False ↦ 0.0).  The spec's concrete examples all
hold: `extractScalar(5.2) = 5.2`, first key wins on
`extractScalar({"sg": 1.1, "noaa": 1.3}) = 1.1`, and `None` and `{}` give
nothing. -/
theorem pick_value_amended :
    (∀ q : ℚ, pickValue (some (J.num q)) = some q) ∧
    (∀ b : Bool, pickValue (some (J.bool b)) = some (if b then 1 else 0)) ∧
    (∀ (k : String) (q : ℚ) (rest : List (String × J)),
      pickValue (some (J.obj ((k, J.num q) :: rest))) = some q) ∧
    (∀ (k : String) (b : Bool) (rest : List (String × J)),
      pickValue (some (J.obj ((k, J.bool b) :: rest))) = some (if b then 1 else 0)) ∧
    pickValue none = none ∧
    pickValue (some J.null) = none ∧
    pickValue (some (J.obj [])) = none ∧
    (∀ s : String, pickValue (some (J.str s)) = none) ∧
    (∀ xs : List J, pickValue (some (J.arr xs)) = none) ∧
    pickValue (some (J.num (26 / 5))) = some (26 / 5) ∧
    pickValue (some (J.obj [("sg", J.num (11 / 10)), ("noaa", J.num (13 / 10))])) =
      some (11 / 10) := by
  refine ⟨fun q => rfl, fun b => rfl, fun k q rest => rfl, fun k b rest => rfl,
    rfl, rfl, rfl, fun s => rfl, fun xs => rfl, rfl, rfl⟩

/-- C10 counterexample: the claim says a non-empty mapping whose first value
is not a plain number yields nothing, but a boolean first value (not a JSON
number) passes the source's `isinstance(v, (int, float))` check:
`_pick_value({"sg": True}) = 1.0`. -/
theorem pick_value_first_nonnumeric_cex :
    ¬ (∀ (k : String) (v : J) (rest : List (String × J)),
        (∀ q : ℚ, v ≠ J.num q) →
        pickValue (some (J.obj ((k, v) :: rest))) = none) := by
  intro h
  have hb := h "sg" (J.bool true) [] (fun q hq => J.noConfusion hq)
  simp [pickValue] at hb

/-- C10 amended: for a non-empty mapping the result depends only on the
first entry; a first value that is neither a number nor a boolean (null,
string, array, nested mapping) yields nothing, without any fallback to later
keys, while a boolean first value is converted by `float` (True ↦ 1.0,
False ↦ 0.0). -/
theorem pick_value_first_key_amended :
    (∀ (k : String) (v : J) (rest : List (String × J)),
      pickValue (some (J.obj ((k, v) :: rest))) = pickValue (some (J.obj [(k, v)]))) ∧
    (∀ (k : String) (rest : List (String × J)),
      pickValue (some (J.obj ((k, J.null) :: rest))) = none) ∧
    (∀ (k s : String) (rest : List (String × J)),
      pickValue (some (J.obj ((k, J.str s) :: rest))) = none) ∧
    (∀ (k : String) (xs : List J) (rest : List (String × J)),
      pickValue (some (J.obj ((k, J.arr xs) :: rest))) = none) ∧
    (∀ (k : String) (fs : List (String × J)) (rest : List (String × J)),
      pickValue (some (J.obj ((k, J.obj fs) :: rest))) = none) ∧
    (∀ (k : String) (b : Bool) (rest : List (String × J)),
      pickValue (some (J.obj ((k, J.bool b) :: rest))) = some (if b then 1 else 0)) := by
  refine ⟨fun k v rest => ?_, fun k rest => rfl, fun k s rest => rfl,
    fun k xs rest => rfl, fun k fs rest => rfl, fun k b rest => rfl⟩
  cases v <;> rfl

/-!
## Claims about `Tools.sea_day` (C3, C4, C5, C6, C7, C9)
-/

/-- An invocation that passes the key check, resolves its range (possibly via
the retry), geocodes successfully and converts the coordinates proceeds to
the weather stage. -/
theorem seaDay_reaches_weather (env : Env) (date place tz d2 : String) (r : ℤ × ℤ)
    (gj : J) (la lo : ℚ)
    (hkey : env.stormKey ≠ "")
    (hres : resolveRetry env (if pyStrip date = "" then env.today else pyStrip date) tz =
      .ok (d2, r))
    (hgeo : googleGeocodePlace place env.googleKey env.geocodeResp = some gj)
    (hok : jTruthy ((jGet gj "ok").getD J.null) = true)
    (hla : pyFloat ((jGet gj "lat").getD J.null) = some la)
    (hlo : pyFloat ((jGet gj "lng").getD J.null) = some lo) :
    seaDay env date place tz = seaDayWeather env d2 tz r la lo := by
  simp only [seaDay]
  rw [if_neg hkey, hres]
  simp only [seaDayGeo]
  rw [hgeo]
  simp only [hok, Bool.not_true, if_false]
  rw [hla, hlo]
  simp

/-- C3: when the weather fetch raises, `sea_day` returns the envelope
`ok: false`, `stage: "stormglass_weather"`, `error: <exception text>`
(Sea_Day.py lines 222-231), and that envelope has no `hourly` and no
`summary` field. -/
theorem sea_day_weather_failure (env : Env) (date place tz d2 : String) (r : ℤ × ℤ)
    (gj : J) (la lo : ℚ) (e : String)
    (hkey : env.stormKey ≠ "")
    (hres : resolveRetry env (if pyStrip date = "" then env.today else pyStrip date) tz =
      .ok (d2, r))
    (hgeo : googleGeocodePlace place env.googleKey env.geocodeResp = some gj)
    (hok : jTruthy ((jGet gj "ok").getD J.null) = true)
    (hla : pyFloat ((jGet gj "lat").getD J.null) = some la)
    (hlo : pyFloat ((jGet gj "lng").getD J.null) = some lo)
    (hw : env.weatherResp = .error e) :
    seaDay env date place tz =
      some (J.obj [("ok", J.bool false), ("stage", J.str "stormglass_weather"),
        ("error", J.str e)]) ∧
    jGet (J.obj [("ok", J.bool false), ("stage", J.str "stormglass_weather"),
      ("error", J.str e)]) "hourly" = none ∧
    jGet (J.obj [("ok", J.bool false), ("stage", J.str "stormglass_weather"),
      ("error", J.str e)]) "summary" = none := by
  refine ⟨?_, rfl, rfl⟩
  rw [seaDay_reaches_weather env date place tz d2 r gj la lo hkey hres hgeo hok hla hlo]
  simp only [seaDayWeather]
  rw [hw]

/-- A fully successful environment used to instantiate witnesses: both keys
present, ranges resolving for `2024-06-01` and for today (`2024-01-01`), a
well-formed geocoding response, a weather payload with two hour entries, and
a tide-extremes payload. -/
def envSea : Env where
  stormKey := "sk"
  googleKey := "gk"
  today := "2024-01-01"
  ranges := fun d _ =>
    if d = "2024-06-01" then .ok (1717171200, 1717257600)
    else if d = "2024-01-01" then .ok (1704038400, 1704124800)
    else .error "ValueError: time data did not match format"
  geocodeResp := .ok (J.obj [("status", J.str "OK"),
    ("results", J.arr [J.obj [
      ("geometry", J.obj [("location", J.obj [("lat", J.num (2198 / 100)), ("lng", J.num (12078 / 100))])]),
      ("formatted_address", J.str "Hengchun")]])])
  weatherResp := .ok (J.obj [
    ("hours", J.arr [
      J.obj [("time", J.str "2024-06-01T00:00:00+00:00"),
        ("swellHeight", J.obj [("sg", J.num 1), ("noaa", J.num 2)]),
        ("windSpeed", J.num 5)],
      J.obj [("time", J.str "2024-06-01T01:00:00+00:00"),
        ("tide", J.num (3 / 2)),
        ("swellHeight", J.num (1 / 2)),
        ("windSpeed", J.num 7)]]),
    ("meta", J.obj [("cost", J.num 1)])])
  tideResp := .ok (J.obj [("data", J.arr [])])
  convertLocal := fun _ s => some (s ++ " local")

/-- C3 witness: a concrete invocation whose weather fetch raises. -/
theorem sea_day_weather_failure_witness :
    seaDay { envSea with weatherResp := .error "URLError: timed out" }
        "2024-06-01" "Hengchun" "Asia/Taipei" =
      some (J.obj [("ok", J.bool false), ("stage", J.str "stormglass_weather"),
        ("error", J.str "URLError: timed out")]) ∧
    jGet (J.obj [("ok", J.bool false), ("stage", J.str "stormglass_weather"),
      ("error", J.str "URLError: timed out")]) "hourly" = none ∧
    jGet (J.obj [("ok", J.bool false), ("stage", J.str "stormglass_weather"),
      ("error", J.str "URLError: timed out")]) "summary" = none :=
  sea_day_weather_failure { envSea with weatherResp := .error "URLError: timed out" }
    "2024-06-01" "Hengchun" "Asia/Taipei" "2024-06-01" (1717171200, 1717257600)
    (J.obj [("ok", J.bool true), ("lat", J.num (2198 / 100)), ("lng", J.num (12078 / 100)),
      ("formatted_address", J.str "Hengchun")])
    (2198 / 100) (12078 / 100) "URLError: timed out"
    (by decide) rfl rfl rfl rfl rfl rfl

/-- Environments that agree on ranges and today resolve identically. -/
theorem resolveRetry_congr (env env2 : Env) (d tz : String)
    (hr : env2.ranges = env.ranges) (ht : env2.today = env.today) :
    resolveRetry env2 d tz = resolveRetry env d tz := by
  unfold resolveRetry
  rw [hr, ht]

/-- C4: when the tide-extremes fetch raises while the weather fetch succeeds,
`sea_day` still returns `ok: true`; its `tide_extremes` field is the inline
error payload `{error: <exception text>, data: null}` (Sea_Day.py lines
233-238), and `hourly` and `summary` are populated exactly as in an otherwise
identical invocation (`env2`) whose tide fetch succeeded. -/
theorem sea_day_tide_failure_degraded (env env2 : Env)
    (date place tz d2 : String) (r : ℤ × ℤ) (gj : J) (la lo : ℚ)
    (te : String) (T w : J) (hl : List J) (waves wts winds : List ℚ)
    (hkey : env.stormKey ≠ "")
    (hres : resolveRetry env (if pyStrip date = "" then env.today else pyStrip date) tz =
      .ok (d2, r))
    (hgeo : googleGeocodePlace place env.googleKey env.geocodeResp = some gj)
    (hok : jTruthy ((jGet gj "ok").getD J.null) = true)
    (hla : pyFloat ((jGet gj "lat").getD J.null) = some la)
    (hlo : pyFloat ((jGet gj "lng").getD J.null) = some lo)
    (hw : env.weatherResp = .ok w)
    (hb : buildHours env.convertLocal tz w = some (hl, waves, wts, winds))
    (ht : env.tideResp = .error te)
    (h2key : env2.stormKey = env.stormKey) (h2today : env2.today = env.today)
    (h2ranges : env2.ranges = env.ranges) (h2gk : env2.googleKey = env.googleKey)
    (h2geo : env2.geocodeResp = env.geocodeResp)
    (h2w : env2.weatherResp = env.weatherResp)
    (h2conv : env2.convertLocal = env.convertLocal)
    (h2tide : env2.tideResp = .ok T) :
    oGet (seaDay env date place tz) "ok" = some (J.bool true) ∧
    oGet (seaDay env date place tz) "tide_extremes" =
      some (J.obj [("error", J.str te), ("data", J.null)]) ∧
    oGet (seaDay env date place tz) "hourly" = some (J.arr hl) ∧
    oGet (seaDay env date place tz) "summary" ≠ none ∧
    oGet (seaDay env date place tz) "hourly" = oGet (seaDay env2 date place tz) "hourly" ∧
    oGet (seaDay env date place tz) "summary" = oGet (seaDay env2 date place tz) "summary" := by
  have h1 : seaDay env date place tz = seaDayWeather env d2 tz r la lo :=
    seaDay_reaches_weather env date place tz d2 r gj la lo hkey hres hgeo hok hla hlo
  have hres2 : resolveRetry env2 (if pyStrip date = "" then env2.today else pyStrip date) tz =
      .ok (d2, r) := by
    rw [h2today, resolveRetry_congr env env2 _ tz h2ranges h2today]
    exact hres
  have hgeo2 : googleGeocodePlace place env2.googleKey env2.geocodeResp = some gj := by
    rw [h2gk, h2geo]; exact hgeo
  have h2 : seaDay env2 date place tz = seaDayWeather env2 d2 tz r la lo :=
    seaDay_reaches_weather env2 date place tz d2 r gj la lo (by rw [h2key]; exact hkey)
      hres2 hgeo2 hok hla hlo
  have e1 : seaDayWeather env d2 tz r la lo =
      some (J.obj [
        ("ok", J.bool true),
        ("query", J.obj [("date", J.str d2), ("timezone", J.str tz)]),
        ("location", J.obj [("lat", J.num la), ("lng", J.num lo)]),
        ("range_utc", J.obj [("start", J.num r.1), ("end", J.num r.2)]),
        ("summary", J.obj [
          ("swellHeight", (safeMinmax waves).getD J.null),
          ("waterTemperature", (safeMinmax wts).getD J.null),
          ("windSpeed", (safeMinmax winds).getD J.null)]),
        ("hourly", J.arr hl),
        ("tide_extremes", J.obj [("error", J.str te), ("data", J.null)]),
        ("raw", J.obj [("stormglass_weather_meta", (jGet w "meta").getD J.null)])]) := by
    simp only [seaDayWeather]
    rw [hw]
    dsimp only
    rw [ht, hb]
  have e2 : seaDayWeather env2 d2 tz r la lo =
      some (J.obj [
        ("ok", J.bool true),
        ("query", J.obj [("date", J.str d2), ("timezone", J.str tz)]),
        ("location", J.obj [("lat", J.num la), ("lng", J.num lo)]),
        ("range_utc", J.obj [("start", J.num r.1), ("end", J.num r.2)]),
        ("summary", J.obj [
          ("swellHeight", (safeMinmax waves).getD J.null),
          ("waterTemperature", (safeMinmax wts).getD J.null),
          ("windSpeed", (safeMinmax winds).getD J.null)]),
        ("hourly", J.arr hl),
        ("tide_extremes", T),
        ("raw", J.obj [("stormglass_weather_meta", (jGet w "meta").getD J.null)])]) := by
    simp only [seaDayWeather]
    rw [h2w, hw]
    dsimp only
    rw [h2tide, h2conv, hb]
  rw [h1, h2, e1, e2]
  exact ⟨rfl, rfl, rfl, by simp [oGet, jGet], rfl, rfl⟩

/-- C4 witness: a concrete invocation whose tide fetch raises while weather
succeeds, compared against the same invocation with a successful tide fetch. -/
theorem sea_day_tide_failure_degraded_witness :
    oGet (seaDay { envSea with tideResp := .error "ConnectionError: reset" }
        "2024-06-01" "Hengchun" "Asia/Taipei") "ok" = some (J.bool true) ∧
    oGet (seaDay { envSea with tideResp := .error "ConnectionError: reset" }
        "2024-06-01" "Hengchun" "Asia/Taipei") "tide_extremes" =
      some (J.obj [("error", J.str "ConnectionError: reset"), ("data", J.null)]) ∧
    oGet (seaDay { envSea with tideResp := .error "ConnectionError: reset" }
        "2024-06-01" "Hengchun" "Asia/Taipei") "hourly" =
      some (J.arr [
        J.obj [("time_local", J.str "2024-06-01T00:00:00+00:00 local"),
          ("time_utc", J.str "2024-06-01T00:00:00+00:00"), ("tide", J.null),
          ("swellHeight", J.num 1), ("waterTemperature", J.null), ("windSpeed", J.num 5)],
        J.obj [("time_local", J.str "2024-06-01T01:00:00+00:00 local"),
          ("time_utc", J.str "2024-06-01T01:00:00+00:00"), ("tide", J.num (3 / 2)),
          ("swellHeight", J.num (1 / 2)), ("waterTemperature", J.null),
          ("windSpeed", J.num 7)]]) ∧
    oGet (seaDay { envSea with tideResp := .error "ConnectionError: reset" }
        "2024-06-01" "Hengchun" "Asia/Taipei") "summary" ≠ none ∧
    oGet (seaDay { envSea with tideResp := .error "ConnectionError: reset" }
        "2024-06-01" "Hengchun" "Asia/Taipei") "hourly" =
      oGet (seaDay envSea "2024-06-01" "Hengchun" "Asia/Taipei") "hourly" ∧
    oGet (seaDay { envSea with tideResp := .error "ConnectionError: reset" }
        "2024-06-01" "Hengchun" "Asia/Taipei") "summary" =
      oGet (seaDay envSea "2024-06-01" "Hengchun" "Asia/Taipei") "summary" :=
  sea_day_tide_failure_degraded
    { envSea with tideResp := .error "ConnectionError: reset" } envSea
    "2024-06-01" "Hengchun" "Asia/Taipei" "2024-06-01" (1717171200, 1717257600)
    (J.obj [("ok", J.bool true), ("lat", J.num (2198 / 100)), ("lng", J.num (12078 / 100)),
      ("formatted_address", J.str "Hengchun")])
    (2198 / 100) (12078 / 100) "ConnectionError: reset"
    (J.obj [("data", J.arr [])])
    (J.obj [
      ("hours", J.arr [
        J.obj [("time", J.str "2024-06-01T00:00:00+00:00"),
          ("swellHeight", J.obj [("sg", J.num 1), ("noaa", J.num 2)]),
          ("windSpeed", J.num 5)],
        J.obj [("time", J.str "2024-06-01T01:00:00+00:00"),
          ("tide", J.num (3 / 2)),
          ("swellHeight", J.num (1 / 2)),
          ("windSpeed", J.num 7)]]),
      ("meta", J.obj [("cost", J.num 1)])])
    [J.obj [("time_local", J.str "2024-06-01T00:00:00+00:00 local"),
        ("time_utc", J.str "2024-06-01T00:00:00+00:00"), ("tide", J.null),
        ("swellHeight", J.num 1), ("waterTemperature", J.null), ("windSpeed", J.num 5)],
      J.obj [("time_local", J.str "2024-06-01T01:00:00+00:00 local"),
        ("time_utc", J.str "2024-06-01T01:00:00+00:00"), ("tide", J.num (3 / 2)),
        ("swellHeight", J.num (1 / 2)), ("waterTemperature", J.null), ("windSpeed", J.num 7)]]
    [1, 1 / 2] [] [5, 7]
    (by decide) rfl rfl rfl rfl rfl rfl rfl rfl rfl rfl rfl rfl rfl rfl rfl rfl

/-- C9: when the weather fetch succeeds but its payload has no `"hours"`
field, or that field is null or an empty list, `hours = weather.get("hours")
or []` (Sea_Day.py line 240) makes the loop run zero times: the result is
still `ok: true` with an empty `hourly` list and all three summary entries
null (zero valid samples for every summary parameter). -/
theorem sea_day_empty_hours (env : Env) (date place tz d2 : String) (r : ℤ × ℤ)
    (gj : J) (la lo : ℚ) (wfs : List (String × J))
    (hkey : env.stormKey ≠ "")
    (hres : resolveRetry env (if pyStrip date = "" then env.today else pyStrip date) tz =
      .ok (d2, r))
    (hgeo : googleGeocodePlace place env.googleKey env.geocodeResp = some gj)
    (hok : jTruthy ((jGet gj "ok").getD J.null) = true)
    (hla : pyFloat ((jGet gj "lat").getD J.null) = some la)
    (hlo : pyFloat ((jGet gj "lng").getD J.null) = some lo)
    (hw : env.weatherResp = .ok (J.obj wfs))
    (hh : wfs.lookup "hours" = none ∨ wfs.lookup "hours" = some J.null ∨
      wfs.lookup "hours" = some (J.arr [])) :
    oGet (seaDay env date place tz) "ok" = some (J.bool true) ∧
    oGet (seaDay env date place tz) "hourly" = some (J.arr []) ∧
    oGet (seaDay env date place tz) "summary" =
      some (J.obj [("swellHeight", J.null), ("waterTemperature", J.null),
        ("windSpeed", J.null)]) := by
  rw [seaDay_reaches_weather env date place tz d2 r gj la lo hkey hres hgeo hok hla hlo]
  have hbh : buildHours env.convertLocal tz (J.obj wfs) = some ([], [], [], []) := by
    rcases hh with h | h | h <;> simp [buildHours, h, jTruthy, loopHours]
  simp only [seaDayWeather]
  rw [hw]
  dsimp only
  rw [hbh]
  exact ⟨rfl, rfl, rfl⟩

/-- C9 witness: a successful invocation whose weather payload lacks the
`"hours"` field entirely. -/
theorem sea_day_empty_hours_witness :
    oGet (seaDay { envSea with weatherResp := .ok (J.obj [("meta", J.null)]) }
        "2024-06-01" "Hengchun" "Asia/Taipei") "ok" = some (J.bool true) ∧
    oGet (seaDay { envSea with weatherResp := .ok (J.obj [("meta", J.null)]) }
        "2024-06-01" "Hengchun" "Asia/Taipei") "hourly" = some (J.arr []) ∧
    oGet (seaDay { envSea with weatherResp := .ok (J.obj [("meta", J.null)]) }
        "2024-06-01" "Hengchun" "Asia/Taipei") "summary" =
      some (J.obj [("swellHeight", J.null), ("waterTemperature", J.null),
        ("windSpeed", J.null)]) :=
  sea_day_empty_hours { envSea with weatherResp := .ok (J.obj [("meta", J.null)]) }
    "2024-06-01" "Hengchun" "Asia/Taipei" "2024-06-01" (1717171200, 1717257600)
    (J.obj [("ok", J.bool true), ("lat", J.num (2198 / 100)), ("lng", J.num (12078 / 100)),
      ("formatted_address", J.str "Hengchun")])
    (2198 / 100) (12078 / 100) [("meta", J.null)]
    (by decide) rfl rfl rfl rfl rfl rfl (Or.inl rfl)

/-- The scalar `_pick_value(h.get(k))` extracted from one hour entry. -/
def hourPick (k : String) (h : J) : Option ℚ :=
  match h with
  | J.obj hf => pickValue (hf.lookup k)
  | _ => none

/-- The three per-parameter accumulator lists built by the hourly loop are
exactly the non-missing extracted values, in hour order. -/
theorem loopHours_acc (conv : String → String → Option String) (tz : String) :
    ∀ (hs hl : List J) (waves wts winds : List ℚ),
      loopHours conv tz hs = some (hl, waves, wts, winds) →
      waves = hs.filterMap (hourPick "swellHeight") ∧
      wts = hs.filterMap (hourPick "waterTemperature") ∧
      winds = hs.filterMap (hourPick "windSpeed") := by
  intro hs
  induction hs with
  | nil =>
    intro hl waves wts winds h
    simp only [loopHours, Option.some.injEq, Prod.mk.injEq] at h
    obtain ⟨h1, h2, h3, h4⟩ := h
    simp [← h2, ← h3, ← h4]
  | cons a t ih =>
    intro hl waves wts winds h
    cases a with
    | obj af =>
      simp only [loopHours, processHour] at h
      cases hlt : loopHours conv tz t with
      | none => rw [hlt] at h; simp at h
      | some quad =>
        obtain ⟨recs, ws, ts, ds⟩ := quad
        rw [hlt] at h
        simp only [Option.some.injEq, Prod.mk.injEq] at h
        obtain ⟨h1, h2, h3, h4⟩ := h
        obtain ⟨hw, ht, hd⟩ := ih recs ws ts ds hlt
        refine ⟨?_, ?_, ?_⟩ <;>
          simp only [List.filterMap_cons, hourPick, ← h2, ← h3, ← h4, ← hw, ← ht, ← hd] <;>
          cases pickValue (af.lookup "swellHeight") <;>
          cases pickValue (af.lookup "waterTemperature") <;>
          cases pickValue (af.lookup "windSpeed") <;> rfl
    | null => simp [loopHours, processHour] at h
    | bool b => simp [loopHours, processHour] at h
    | num q => simp [loopHours, processHour] at h
    | str s => simp [loopHours, processHour] at h
    | arr xs => simp [loopHours, processHour] at h

/-- `min(vals)` as computed by the fold is an element of the list. -/
theorem foldl_min_mem : ∀ (l : List ℚ) (a : ℚ), l.foldl min a ∈ a :: l := by
  intro l
  induction l with
  | nil => intro a; simp
  | cons h t ih =>
    intro a
    rw [List.foldl_cons]
    rcases List.mem_cons.mp (ih (min a h)) with h1 | h1
    · rcases min_choice a h with hc | hc <;> rw [h1, hc] <;> simp
    · exact List.mem_cons.mpr (Or.inr (List.mem_cons.mpr (Or.inr h1)))

/-- `min(vals)` is a lower bound of the list. -/
theorem foldl_min_le : ∀ (l : List ℚ) (a x : ℚ), x ∈ a :: l → l.foldl min a ≤ x := by
  intro l
  induction l with
  | nil =>
    intro a x hx
    simp only [List.mem_singleton] at hx
    simp [hx]
  | cons h t ih =>
    intro a x hx
    rw [List.foldl_cons]
    rcases List.mem_cons.mp hx with h1 | h1
    · exact le_trans (ih (min a h) (min a h) (List.mem_cons_self _ _)) (by rw [h1]; exact min_le_left a h)
    · rcases List.mem_cons.mp h1 with h2 | h2
      · exact le_trans (ih (min a h) (min a h) (List.mem_cons_self _ _)) (by rw [h2]; exact min_le_right a h)
      · exact ih (min a h) x (List.mem_cons.mpr (Or.inr h2))

/-- `max(vals)` as computed by the fold is an element of the list. -/
theorem foldl_max_mem : ∀ (l : List ℚ) (a : ℚ), l.foldl max a ∈ a :: l := by
  intro l
  induction l with
  | nil => intro a; simp
  | cons h t ih =>
    intro a
    rw [List.foldl_cons]
    rcases List.mem_cons.mp (ih (max a h)) with h1 | h1
    · rcases max_choice a h with hc | hc <;> rw [h1, hc] <;> simp
    · exact List.mem_cons.mpr (Or.inr (List.mem_cons.mpr (Or.inr h1)))

/-- `max(vals)` is an upper bound of the list. -/
theorem le_foldl_max : ∀ (l : List ℚ) (a x : ℚ), x ∈ a :: l → x ≤ l.foldl max a := by
  intro l
  induction l with
  | nil =>
    intro a x hx
    simp only [List.mem_singleton] at hx
    simp [hx]
  | cons h t ih =>
    intro a x hx
    rw [List.foldl_cons]
    rcases List.mem_cons.mp hx with h1 | h1
    · exact le_trans (by rw [h1]; exact le_max_left a h) (ih (max a h) (max a h) (List.mem_cons_self _ _))
    · rcases List.mem_cons.mp h1 with h2 | h2
      · exact le_trans (by rw [h2]; exact le_max_right a h) (ih (max a h) (max a h) (List.mem_cons_self _ _))
      · exact ih (max a h) x (List.mem_cons.mpr (Or.inr h2))

/-- The `envSea` environment with a weather payload whose single hour entry
carries only a tide value. -/
def envSeaTideOnly : Env :=
  { envSea with
    weatherResp := .ok (J.obj [("hours", J.arr [J.obj [("tide", J.num (3 / 2))]])]) }

/-- The hour entries of `envSea`'s weather payload. -/
def jArrHoursSea : List J :=
  [J.obj [("time", J.str "2024-06-01T00:00:00+00:00"),
      ("swellHeight", J.obj [("sg", J.num 1), ("noaa", J.num 2)]),
      ("windSpeed", J.num 5)],
    J.obj [("time", J.str "2024-06-01T01:00:00+00:00"),
      ("tide", J.num (3 / 2)),
      ("swellHeight", J.num (1 / 2)),
      ("windSpeed", J.num 7)]]

/-- C5 counterexample: in a successful invocation whose only hourly sample is
a tide value, the summary contains no `tide` entry at all (the loop extracts
`tide_v` but never accumulates it, and line 288 builds the summary from only
`swellHeight`, `waterTemperature` and `windSpeed`), and the three parameters
with zero valid samples appear as explicit null entries (`_safe_minmax`
returns `None`, stored in the dict), not as absent keys — both contradicting
the claim. -/
theorem sea_day_summary_cex :
    oGet (seaDay envSeaTideOnly "2024-06-01" "Hengchun" "Asia/Taipei") "summary" =
      some (J.obj [("swellHeight", J.null), ("waterTemperature", J.null),
        ("windSpeed", J.null)]) ∧
    jGet (J.obj [("swellHeight", J.null), ("waterTemperature", J.null),
      ("windSpeed", J.null)]) "tide" = none ∧
    oGet (seaDay envSeaTideOnly "2024-06-01" "Hengchun" "Asia/Taipei") "hourly" =
      some (J.arr [J.obj [("time_local", J.null), ("time_utc", J.null),
        ("tide", J.num (3 / 2)), ("swellHeight", J.null), ("waterTemperature", J.null),
        ("windSpeed", J.null)]]) :=
  ⟨rfl, rfl, rfl⟩

/-- C5 amended: the summary covers only `swellHeight`, `waterTemperature` and
`windSpeed` — extracted tide values are shown per hour but never summarised —
and each of those three entries is `{min: min(vals), max: max(vals)}` over
the accumulated non-missing hourly values when at least one sample exists
(with `min`/`max` a member of and a lower/upper bound of the samples), and is
an explicit null entry (present, not absent) when there are zero valid
samples. -/
theorem sea_day_summary_amended (env : Env) (date place tz d2 : String) (r : ℤ × ℤ)
    (gj : J) (la lo : ℚ) (wfs : List (String × J)) (hs hl : List J)
    (waves wts winds : List ℚ)
    (hkey : env.stormKey ≠ "")
    (hres : resolveRetry env (if pyStrip date = "" then env.today else pyStrip date) tz =
      .ok (d2, r))
    (hgeo : googleGeocodePlace place env.googleKey env.geocodeResp = some gj)
    (hok : jTruthy ((jGet gj "ok").getD J.null) = true)
    (hla : pyFloat ((jGet gj "lat").getD J.null) = some la)
    (hlo : pyFloat ((jGet gj "lng").getD J.null) = some lo)
    (hw : env.weatherResp = .ok (J.obj wfs))
    (hhs : wfs.lookup "hours" = some (J.arr hs))
    (hlh : loopHours env.convertLocal tz hs = some (hl, waves, wts, winds)) :
    oGet (seaDay env date place tz) "summary" =
      some (J.obj [("swellHeight", (safeMinmax waves).getD J.null),
        ("waterTemperature", (safeMinmax wts).getD J.null),
        ("windSpeed", (safeMinmax winds).getD J.null)]) ∧
    waves = hs.filterMap (hourPick "swellHeight") ∧
    wts = hs.filterMap (hourPick "waterTemperature") ∧
    winds = hs.filterMap (hourPick "windSpeed") ∧
    (safeMinmax []).getD J.null = J.null ∧
    (∀ (v : ℚ) (vs : List ℚ),
      safeMinmax (v :: vs) =
        some (J.obj [("min", J.num (vs.foldl min v)), ("max", J.num (vs.foldl max v))]) ∧
      vs.foldl min v ∈ v :: vs ∧ vs.foldl max v ∈ v :: vs ∧
      ∀ x ∈ v :: vs, vs.foldl min v ≤ x ∧ x ≤ vs.foldl max v) := by
  have hb : buildHours env.convertLocal tz (J.obj wfs) = some (hl, waves, wts, winds) := by
    simp only [buildHours]
    rw [hhs]
    cases hs with
    | nil => simpa [jTruthy] using hlh
    | cons a t => simpa [jTruthy] using hlh
  obtain ⟨haw, hat, had⟩ := loopHours_acc env.convertLocal tz hs hl waves wts winds hlh
  refine ⟨?_, haw, hat, had, rfl, ?_⟩
  · rw [seaDay_reaches_weather env date place tz d2 r gj la lo hkey hres hgeo hok hla hlo]
    simp only [seaDayWeather]
    rw [hw]
    dsimp only
    rw [hb]
    rfl
  · intro v vs
    exact ⟨rfl, foldl_min_mem vs v, foldl_max_mem vs v,
      fun x hx => ⟨foldl_min_le vs v x hx, le_foldl_max vs v x hx⟩⟩

/-- C5 witness: the concrete successful invocation (two hour entries;
swellHeight samples 1 and 1/2, windSpeed samples 5 and 7, no
waterTemperature samples). -/
theorem sea_day_summary_amended_witness :
    oGet (seaDay envSea "2024-06-01" "Hengchun" "Asia/Taipei") "summary" =
      some (J.obj [("swellHeight", (safeMinmax [1, 1 / 2]).getD J.null),
        ("waterTemperature", (safeMinmax []).getD J.null),
        ("windSpeed", (safeMinmax [5, 7]).getD J.null)]) ∧
    [1, (1 : ℚ) / 2] = (jArrHoursSea).filterMap (hourPick "swellHeight") ∧
    ([] : List ℚ) = (jArrHoursSea).filterMap (hourPick "waterTemperature") ∧
    [5, (7 : ℚ)] = (jArrHoursSea).filterMap (hourPick "windSpeed") ∧
    (safeMinmax []).getD J.null = J.null ∧
    (∀ (v : ℚ) (vs : List ℚ),
      safeMinmax (v :: vs) =
        some (J.obj [("min", J.num (vs.foldl min v)), ("max", J.num (vs.foldl max v))]) ∧
      vs.foldl min v ∈ v :: vs ∧ vs.foldl max v ∈ v :: vs ∧
      ∀ x ∈ v :: vs, vs.foldl min v ≤ x ∧ x ≤ vs.foldl max v) :=
  sea_day_summary_amended envSea "2024-06-01" "Hengchun" "Asia/Taipei" "2024-06-01"
    (1717171200, 1717257600)
    (J.obj [("ok", J.bool true), ("lat", J.num (2198 / 100)), ("lng", J.num (12078 / 100)),
      ("formatted_address", J.str "Hengchun")])
    (2198 / 100) (12078 / 100)
    [("hours", J.arr jArrHoursSea), ("meta", J.obj [("cost", J.num 1)])]
    jArrHoursSea
    [J.obj [("time_local", J.str "2024-06-01T00:00:00+00:00 local"),
        ("time_utc", J.str "2024-06-01T00:00:00+00:00"), ("tide", J.null),
        ("swellHeight", J.num 1), ("waterTemperature", J.null), ("windSpeed", J.num 5)],
      J.obj [("time_local", J.str "2024-06-01T01:00:00+00:00 local"),
        ("time_utc", J.str "2024-06-01T01:00:00+00:00"), ("tide", J.num (3 / 2)),
        ("swellHeight", J.num (1 / 2)), ("waterTemperature", J.null), ("windSpeed", J.num 7)]]
    [1, 1 / 2] [] [5, 7]
    (by decide) rfl rfl rfl rfl rfl rfl rfl rfl

/-- C6: when range resolution fails for the supplied (trimmed, non-empty)
date, `sea_day` retries exactly once with the current date
(Sea_Day.py lines 190-202): if that retry succeeds the whole invocation
behaves exactly as if it had been called with today's date — in particular a
successful result is keyed to today (`query.date = today`) — and only if the
retry also fails does it return the `stage: "time_range"` failure envelope
(carrying the retry's exception text; the first exception is discarded). -/
theorem sea_day_date_retry (env : Env) (date place tz e1 : String)
    (hkey : env.stormKey ≠ "")
    (hdt : pyStrip date ≠ "")
    (htd : pyStrip env.today = env.today)
    (htne : env.today ≠ "")
    (hfail : env.ranges (pyStrip date) tz = .error e1) :
    (∀ r : ℤ × ℤ, env.ranges env.today tz = .ok r →
      seaDay env date place tz = seaDay env env.today place tz) ∧
    (∀ e2 : String, env.ranges env.today tz = .error e2 →
      seaDay env date place tz =
        some (J.obj [("ok", J.bool false), ("stage", J.str "time_range"),
          ("error", J.str e2)])) ∧
    (∀ r : ℤ × ℤ, env.ranges env.today tz = .ok r →
      oGet (seaDay env date place tz) "ok" = some (J.bool true) →
      oGet (seaDay env date place tz) "query" =
        some (J.obj [("date", J.str env.today), ("timezone", J.str tz)])) := by
  have l1 : ∀ r : ℤ × ℤ, env.ranges env.today tz = .ok r →
      seaDay env date place tz = seaDayGeo env env.today place tz r := by
    intro r hr
    simp only [seaDay]
    rw [if_neg hkey, if_neg hdt]
    simp only [resolveRetry]
    rw [hfail, hr]
  refine ⟨?_, ?_, ?_⟩
  · intro r hr
    rw [l1 r hr]
    simp only [seaDay]
    rw [if_neg hkey, htd, if_neg htne]
    simp only [resolveRetry]
    rw [hr]
  · intro e2 he2
    simp only [seaDay]
    rw [if_neg hkey, if_neg hdt]
    simp only [resolveRetry]
    rw [hfail, he2]
  · intro r hr hok3
    rw [l1 r hr] at hok3 ⊢
    simp only [seaDayGeo] at hok3 ⊢
    cases hggp : googleGeocodePlace place env.googleKey env.geocodeResp with
    | none => rw [hggp] at hok3; simp [oGet] at hok3
    | some gj =>
      rw [hggp] at hok3
      dsimp only at hok3 ⊢
      cases hokb : jTruthy ((jGet gj "ok").getD J.null) with
      | false =>
        rw [hokb] at hok3
        simp [oGet, jGet] at hok3
      | true =>
        rw [hokb] at hok3
        simp only [Bool.not_true, if_false] at hok3 ⊢
        cases hla2 : pyFloat ((jGet gj "lat").getD J.null) with
        | none => rw [hla2] at hok3; simp [oGet] at hok3
        | some la =>
          rw [hla2] at hok3
          cases hlo2 : pyFloat ((jGet gj "lng").getD J.null) with
          | none => rw [hlo2] at hok3; simp [oGet] at hok3
          | some lo =>
            rw [hlo2] at hok3
            dsimp only at hok3 ⊢
            simp only [seaDayWeather] at hok3 ⊢
            cases hwr : env.weatherResp with
            | error e =>
              rw [hwr] at hok3
              simp [oGet, jGet] at hok3
            | ok w =>
              rw [hwr] at hok3
              dsimp only at hok3 ⊢
              cases hbh : buildHours env.convertLocal tz w with
              | none => rw [hbh] at hok3; simp [oGet] at hok3
              | some quad =>
                obtain ⟨hlx, wv, tv, dv⟩ := quad
                rfl

/-- C6 witness: `"2024-13-99"` fails range resolution, today
(`"2024-01-01"`) succeeds, and the invocation equals the today-invocation and
is keyed to today. -/
theorem sea_day_date_retry_witness :
    seaDay envSea "2024-13-99" "Hengchun" "Asia/Taipei" =
      seaDay envSea "2024-01-01" "Hengchun" "Asia/Taipei" ∧
    oGet (seaDay envSea "2024-13-99" "Hengchun" "Asia/Taipei") "query" =
      some (J.obj [("date", J.str "2024-01-01"), ("timezone", J.str "Asia/Taipei")]) :=
  have h := sea_day_date_retry envSea "2024-13-99" "Hengchun" "Asia/Taipei"
    "ValueError: time data did not match format"
    (by decide) (by decide) rfl (by decide) rfl
  ⟨h.1 (1704038400, 1704124800) rfl, h.2.2 (1704038400, 1704124800) rfl rfl⟩

/-- C7 counterexample: the missing-marine-data-key failure (Sea_Day.py lines
186-187) returns only `{ok: false, error: ...}` — no `stage` field,
contradicting the claim that every failure envelope carries all three of
`ok`, `stage` and `error`.  Moreover an invocation is not always a returned
envelope: a weather payload that decodes to a JSON array (not a dict) makes
`weather.get("hours")` (line 240) raise `AttributeError`, which propagates to
the caller (modelled as `none`). -/
theorem sea_day_failure_envelope_cex :
    seaDay { envSea with stormKey := "" } "2024-06-01" "Hengchun" "Asia/Taipei" =
      some (J.obj [("ok", J.bool false),
        ("error", J.str "Missing STORMGLASS_API_KEY env var")]) ∧
    oGet (seaDay { envSea with stormKey := "" } "2024-06-01" "Hengchun" "Asia/Taipei")
      "stage" = none ∧
    oGet (seaDay { envSea with stormKey := "" } "2024-06-01" "Hengchun" "Asia/Taipei")
      "ok" = some (J.bool false) ∧
    seaDay { envSea with weatherResp := .ok (J.arr []) }
      "2024-06-01" "Hengchun" "Asia/Taipei" = none :=
  ⟨rfl, rfl, rfl, rfl⟩

/-- C7 amended: whenever `sea_day` returns (rather than raising on an
upstream payload that violates the expected object shapes), the result is
either a success envelope (`ok: true`) or a failure envelope with
`ok: false` and an `error` field; every failure envelope except the
missing-marine-data-key one (which carries only `ok` and `error`, checked
eagerly before any network call) also carries a `stage` field. -/
theorem sea_day_failure_envelope_amended (env : Env) (date place tz : String) (res : J)
    (h : seaDay env date place tz = some res) :
    (env.stormKey = "" →
      res = J.obj [("ok", J.bool false),
        ("error", J.str "Missing STORMGLASS_API_KEY env var")] ∧
      jGet res "stage" = none) ∧
    (jGet res "ok" = some (J.bool true) ∨
      (jGet res "ok" = some (J.bool false) ∧ jGet res "error" ≠ none ∧
        (env.stormKey ≠ "" → jGet res "stage" ≠ none))) := by
  simp only [seaDay] at h
  by_cases hk : env.stormKey = ""
  · rw [if_pos hk] at h
    simp only [Option.some.injEq] at h
    subst h
    exact ⟨fun _ => ⟨rfl, rfl⟩,
      Or.inr ⟨rfl, fun hc => Option.noConfusion hc, fun hne => absurd hk hne⟩⟩
  · rw [if_neg hk] at h
    refine ⟨fun hk2 => absurd hk2 hk, ?_⟩
    cases hrr : resolveRetry env (if pyStrip date = "" then env.today else pyStrip date) tz with
    | error e =>
      rw [hrr] at h
      simp only [Option.some.injEq] at h
      subst h
      exact Or.inr ⟨rfl, fun hc => Option.noConfusion hc, fun _ hc => Option.noConfusion hc⟩
    | ok pr =>
      obtain ⟨d2, r⟩ := pr
      rw [hrr] at h
      simp only [seaDayGeo] at h
      cases hggp : googleGeocodePlace place env.googleKey env.geocodeResp with
      | none => rw [hggp] at h; exact Option.noConfusion h
      | some gj =>
        rw [hggp] at h
        dsimp only at h
        cases hokb : jTruthy ((jGet gj "ok").getD J.null) with
        | false =>
          rw [hokb] at h
          simp only [Bool.not_false, if_true, Option.some.injEq] at h
          subst h
          exact Or.inr ⟨rfl, fun hc => Option.noConfusion hc, fun _ hc => Option.noConfusion hc⟩
        | true =>
          rw [hokb] at h
          simp only [Bool.not_true, Bool.false_eq_true, if_false] at h
          cases hla2 : pyFloat ((jGet gj "lat").getD J.null) with
          | none => rw [hla2] at h; exact Option.noConfusion h
          | some la =>
            rw [hla2] at h
            cases hlo2 : pyFloat ((jGet gj "lng").getD J.null) with
            | none => rw [hlo2] at h; exact Option.noConfusion h
            | some lo =>
              rw [hlo2] at h
              dsimp only at h
              simp only [seaDayWeather] at h
              cases hwr : env.weatherResp with
              | error e =>
                rw [hwr] at h
                simp only [Option.some.injEq] at h
                subst h
                exact Or.inr ⟨rfl, fun hc => Option.noConfusion hc,
                  fun _ hc => Option.noConfusion hc⟩
              | ok w =>
                rw [hwr] at h
                dsimp only at h
                cases hbh : buildHours env.convertLocal tz w with
                | none => rw [hbh] at h; exact Option.noConfusion h
                | some quad =>
                  obtain ⟨hlx, wv, tv, dv⟩ := quad
                  rw [hbh] at h
                  simp only [Option.some.injEq] at h
                  subst h
                  exact Or.inl rfl

/-- The `envSea` environment whose range resolution always raises. -/
def envRangesFail : Env :=
  { envSea with ranges := fun _ _ => .error "ValueError: boom" }

/-- C7 witness: a concrete invocation failing at the time-range stage; its
envelope has `ok: false`, `error`, and a `stage` field. -/
theorem sea_day_failure_envelope_amended_witness :
    (envRangesFail.stormKey = "" →
      J.obj [("ok", J.bool false), ("stage", J.str "time_range"),
          ("error", J.str "ValueError: boom")] =
        J.obj [("ok", J.bool false),
          ("error", J.str "Missing STORMGLASS_API_KEY env var")] ∧
      jGet (J.obj [("ok", J.bool false), ("stage", J.str "time_range"),
        ("error", J.str "ValueError: boom")]) "stage" = none) ∧
    (jGet (J.obj [("ok", J.bool false), ("stage", J.str "time_range"),
        ("error", J.str "ValueError: boom")]) "ok" = some (J.bool true) ∨
      (jGet (J.obj [("ok", J.bool false), ("stage", J.str "time_range"),
          ("error", J.str "ValueError: boom")]) "ok" = some (J.bool false) ∧
        jGet (J.obj [("ok", J.bool false), ("stage", J.str "time_range"),
          ("error", J.str "ValueError: boom")]) "error" ≠ none ∧
        (envRangesFail.stormKey ≠ "" →
          jGet (J.obj [("ok", J.bool false), ("stage", J.str "time_range"),
            ("error", J.str "ValueError: boom")]) "stage" ≠ none))) :=
  sea_day_failure_envelope_amended envRangesFail "2024-06-01" "Hengchun" "Asia/Taipei"
    (J.obj [("ok", J.bool false), ("stage", J.str "time_range"),
      ("error", J.str "ValueError: boom")]) rfl

/-!
## Claim about `_google_geocode_place` (C8)
-/

/-- C8: for a place that is non-empty after trimming (and a present API key,
without which no request is made), a geocoding response with `status: "OK"`
and at least one result whose `geometry.location` carries non-null `lat` and
`lng` makes `geocode` succeed, returning the **first** result's lat/lng
values and formatted address unchanged (Sea_Day.py lines 89-111). -/
theorem google_geocode_ok (place apiKey : String) (dfs tfs gfs lfs : List (String × J))
    (rest : List J) (lat lng : J)
    (hp : pyStrip place ≠ "")
    (hk : apiKey ≠ "")
    (hst : dfs.lookup "status" = some (J.str "OK"))
    (hres : dfs.lookup "results" = some (J.arr (J.obj tfs :: rest)))
    (hgeom : tfs.lookup "geometry" = some (J.obj gfs))
    (hloc : gfs.lookup "location" = some (J.obj lfs))
    (hlat : lfs.lookup "lat" = some lat) (hlat0 : lat ≠ J.null)
    (hlng : lfs.lookup "lng" = some lng) (hlng0 : lng ≠ J.null) :
    googleGeocodePlace place apiKey (.ok (J.obj dfs)) =
      some (J.obj [("ok", J.bool true), ("lat", lat), ("lng", lng),
        ("formatted_address", (tfs.lookup "formatted_address").getD J.null)]) := by
  have hgfs : gfs.isEmpty = false := by
    cases gfs with
    | nil => simp [List.lookup] at hloc
    | cons a t => rfl
  have hlfs : lfs.isEmpty = false := by
    cases lfs with
    | nil => simp [List.lookup] at hlat
    | cons a t => rfl
  have hlatn : jIsNull lat = false := by
    cases lat with
    | null => exact absurd rfl hlat0
    | bool b => rfl
    | num q => rfl
    | str s => rfl
    | arr xs => rfl
    | obj fs => rfl
  have hlngn : jIsNull lng = false := by
    cases lng with
    | null => exact absurd rfl hlng0
    | bool b => rfl
    | num q => rfl
    | str s => rfl
    | arr xs => rfl
    | obj fs => rfl
  simp only [googleGeocodePlace]
  rw [if_neg hp, if_neg hk]
  rw [hst]
  simp only [Option.getD_some, jEqStr, beq_self_eq_true, Bool.not_true, Bool.false_eq_true,
    if_false]
  rw [hres]
  simp only [Option.getD_some, jTruthy, List.isEmpty_cons, Bool.not_false, if_true,
    Bool.not_true, Bool.false_eq_true, if_false]
  rw [hgeom]
  simp only [Option.getD_some, jTruthy, hgfs, Bool.not_false, if_true]
  rw [hloc]
  simp only [Option.getD_some, jTruthy, hlfs, Bool.not_false, if_true]
  rw [hlat, hlng]
  simp only [Option.getD_some, hlatn, hlngn, Bool.or_self, Bool.false_eq_true, if_false]

/-- C8 witness: a concrete OK response with one result. -/
theorem google_geocode_ok_witness :
    googleGeocodePlace "Hengchun" "gk" (.ok (J.obj [("status", J.str "OK"),
      ("results", J.arr [J.obj [
        ("geometry", J.obj [("location",
          J.obj [("lat", J.num (2198 / 100)), ("lng", J.num (12078 / 100))])]),
        ("formatted_address", J.str "Hengchun")]])])) =
      some (J.obj [("ok", J.bool true), ("lat", J.num (2198 / 100)),
        ("lng", J.num (12078 / 100)), ("formatted_address", J.str "Hengchun")]) :=
  google_geocode_ok "Hengchun" "gk"
    [("status", J.str "OK"),
      ("results", J.arr [J.obj [
        ("geometry", J.obj [("location",
          J.obj [("lat", J.num (2198 / 100)), ("lng", J.num (12078 / 100))])]),
        ("formatted_address", J.str "Hengchun")]])]
    [("geometry", J.obj [("location",
        J.obj [("lat", J.num (2198 / 100)), ("lng", J.num (12078 / 100))])]),
      ("formatted_address", J.str "Hengchun")]
    [("location", J.obj [("lat", J.num (2198 / 100)), ("lng", J.num (12078 / 100))])]
    [("lat", J.num (2198 / 100)), ("lng", J.num (12078 / 100))]
    [] (J.num (2198 / 100)) (J.num (12078 / 100))
    (by decide) (by decide) rfl rfl rfl rfl rfl
    (fun h => J.noConfusion h) rfl (fun h => J.noConfusion h)

/-!
## Claim about `_day_range_to_utc_timestamps` (C2)
-/

/-- `t` is below the first transition instant of the list (if any). -/
def headLT (t : ℤ) : List (ℤ × ℤ) → Prop
  | [] => True
  | (τ, _) :: _ => t < τ

/-- `t` is at most the first transition instant of the list (if any). -/
def headLE (t : ℤ) : List (ℤ × ℤ) → Prop
  | [] => True
  | (τ, _) :: _ => t ≤ τ

theorem sortedT_tail (x : ℤ × ℤ) (l : List (ℤ × ℤ)) (h : sortedT (x :: l) = true) :
    sortedT l = true := by
  obtain ⟨τ, o⟩ := x
  cases l with
  | nil => rfl
  | cons y t =>
    obtain ⟨τ2, o2⟩ := y
    simp only [sortedT, Bool.and_eq_true] at h
    exact h.2

theorem sortedT_headLT (τ o : ℤ) (l : List (ℤ × ℤ)) (h : sortedT ((τ, o) :: l) = true) :
    headLT τ l := by
  cases l with
  | nil => trivial
  | cons y t =>
    obtain ⟨τ2, o2⟩ := y
    simp only [sortedT, Bool.and_eq_true, decide_eq_true_eq] at h
    exact h.1

theorem gapFree_tail (p τ o w : ℤ) (l : List (ℤ × ℤ))
    (h : gapFree p ((τ, o) :: l) w = true) : gapFree o l w = true := by
  simp only [gapFree, Bool.and_eq_true] at h
  exact h.2

theorem gapFree_head (p τ o w : ℤ) (l : List (ℤ × ℤ))
    (h : gapFree p ((τ, o) :: l) w = true) : ¬(p < o ∧ τ + p < w ∧ w < τ + o) := by
  simp only [gapFree, Bool.and_eq_true, Bool.not_eq_true', Bool.and_eq_false_iff,
    decide_eq_false_iff_not] at h
  rintro ⟨h1, h2, h3⟩
  rcases h.1 with h4 | h4
  · rcases h4 with h5 | h5
    · exact h5 h1
    · exact h5 h2
  · exact h4 h3

theorem offAtUtc_of_headLT (p t : ℤ) (l : List (ℤ × ℤ)) (h : headLT t l) :
    offAtUtc p l t = p := by
  cases l with
  | nil => rfl
  | cons x rest =>
    obtain ⟨τ, o⟩ := x
    exact if_pos h

/-- The UTC instant a wall time resolves to lies at or after any transition
instant `t0` whose local entry `t0 + p` is at or before that wall time
(auxiliary bound for the descent case). -/
theorem localize_ge : ∀ (l : List (ℤ × ℤ)) (p w t0 : ℤ), sortedT l = true →
    headLE t0 l → t0 + p ≤ w → t0 ≤ localize p l w := by
  intro l
  induction l with
  | nil =>
    intro p w t0 _ _ hw
    simp only [localize, wallOff]
    omega
  | cons x rest ih =>
    obtain ⟨τ2, o2⟩ := x
    intro p w t0 hs hh hw
    simp only [localize, wallOff]
    by_cases hc : w < τ2 + max p o2
    · rw [if_pos hc]; omega
    · rw [if_neg hc]
      push_neg at hc
      have h1 : t0 ≤ τ2 := hh
      have h2 : τ2 + o2 ≤ w := by
        have := le_max_right p o2
        omega
      have h3 : headLE τ2 rest := by
        have := sortedT_headLT τ2 o2 rest hs
        cases rest with
        | nil => trivial
        | cons z t => exact le_of_lt this
      have h4 := ih o2 w τ2 (sortedT_tail _ _ hs) h3 h2
      simp only [localize] at h4
      omega

/-- Key lemma: with strictly sorted transitions, and the wall time `w` not
strictly inside a skipped-clock gap, the fold-0 resolution computed by
`localize` is exactly the first UTC instant at which the zone's wall clock
(`t + offAtUtc t`) has reached `w`. -/
theorem localize_isLeast : ∀ (l : List (ℤ × ℤ)) (p w : ℤ), sortedT l = true →
    gapFree p l w = true →
    IsLeast {t : ℤ | w ≤ t + offAtUtc p l t} (localize p l w) := by
  intro l
  induction l with
  | nil =>
    intro p w _ _
    constructor
    · show w ≤ localize p [] w + offAtUtc p [] w
      simp only [localize, wallOff, offAtUtc]
      omega
    · intro t ht
      simp only [Set.mem_setOf_eq, offAtUtc] at ht
      simp only [localize, wallOff]
      omega
  | cons x rest ih =>
    obtain ⟨τ, o⟩ := x
    intro p w hs hg
    have hst : sortedT rest = true := sortedT_tail _ _ hs
    have hgt : gapFree o rest w = true := gapFree_tail p τ o w rest hg
    have hgh : ¬(p < o ∧ τ + p < w ∧ w < τ + o) := gapFree_head p τ o w rest hg
    by_cases hc : w < τ + max p o
    · have hloc : localize p ((τ, o) :: rest) w = w - p := by
        simp only [localize, wallOff, if_pos hc]
      have hsle : w - p ≤ τ := by
        by_contra hcon
        push_neg at hcon
        have hmax : p < o := by
          by_contra hpo
          push_neg at hpo
          rw [max_eq_left hpo] at hc
          omega
        rw [max_eq_right (le_of_lt hmax)] at hc
        exact hgh ⟨hmax, by omega, hc⟩
      constructor
      · show w ≤ localize p ((τ, o) :: rest) w +
          offAtUtc p ((τ, o) :: rest) (localize p ((τ, o) :: rest) w)
        rw [hloc]
        rcases lt_or_eq_of_le hsle with hlt | heq
        · simp only [offAtUtc, if_pos hlt]
          omega
        · have hoff : offAtUtc p ((τ, o) :: rest) (w - p) = o := by
            rw [heq]
            simp only [offAtUtc, lt_irrefl, if_false]
            exact offAtUtc_of_headLT o τ rest (sortedT_headLT τ o rest hs)
          rw [hoff]
          rcases le_or_lt o p with hop | hop
          · rw [max_eq_left hop] at hc; omega
          · rw [max_eq_right (le_of_lt hop)] at hc; omega
      · intro t ht
        simp only [Set.mem_setOf_eq] at ht
        rw [hloc]
        rcases lt_or_le t τ with h1 | h1
        · rw [offAtUtc_of_headLT p t ((τ, o) :: rest) h1] at ht
          omega
        · omega
    · push_neg at hc
      have hloc : localize p ((τ, o) :: rest) w = localize o rest w := by
        simp only [localize, wallOff, if_neg (not_lt.mpr hc)]
      have hw2 : τ + o ≤ w := by
        have := le_max_right p o
        omega
      have hleast := ih o w hst hgt
      have hge : τ ≤ localize o rest w := by
        have hhd : headLE τ rest := by
          have := sortedT_headLT τ o rest hs
          cases rest with
          | nil => trivial
          | cons z t => exact le_of_lt this
        exact localize_ge rest o w τ hst hhd hw2
      constructor
      · show w ≤ localize p ((τ, o) :: rest) w +
          offAtUtc p ((τ, o) :: rest) (localize p ((τ, o) :: rest) w)
        rw [hloc]
        have hmem := hleast.1
        simp only [Set.mem_setOf_eq] at hmem
        have hofeq : offAtUtc p ((τ, o) :: rest) (localize o rest w) =
            offAtUtc o rest (localize o rest w) := by
          simp only [offAtUtc, if_neg (not_lt.mpr hge)]
        rw [hofeq]
        exact hmem
      · intro t ht
        simp only [Set.mem_setOf_eq] at ht
        rw [hloc]
        rcases lt_or_le t τ with h1 | h1
        · rw [offAtUtc_of_headLT p t ((τ, o) :: rest) h1] at ht
          have := le_max_left p o
          omega
        · have hofeq : offAtUtc p ((τ, o) :: rest) t = offAtUtc o rest t := by
            simp only [offAtUtc, if_neg (not_lt.mpr h1)]
          rw [hofeq] at ht
          exact hleast.2 ht

/-- C2: `(start_utc, end_utc) = _day_range_to_utc_timestamps(date, tz)` are
exactly the first UTC instants at which the zone's wall clock reaches local
midnight (`w0`) and the next local midnight (`w0 + 86400`) respectively —
i.e. the true boundaries of the local day, the wall-clock interval
[local midnight, next local midnight) of the spec's glossary.  Consequently
`end_utc - start_utc` equals the true wall-clock duration of that local day
(the unique difference of those first-passage instants), which on
DST-transition days differs from 86400 by the net offset change.  Hypotheses:
the zone's transition instants strictly increase, and neither midnight lies
strictly inside a skipped-clock gap (true of real `(date, zone)` pairs whose
local day exists). -/
theorem day_range_true_duration (p : ℤ) (l : List (ℤ × ℤ)) (w0 : ℤ)
    (hs : sortedT l = true)
    (hg0 : gapFree p l w0 = true)
    (hg1 : gapFree p l (w0 + 86400) = true) :
    IsLeast {t : ℤ | w0 ≤ t + offAtUtc p l t} (dayRangeToUtc p l w0).1 ∧
    IsLeast {t : ℤ | w0 + 86400 ≤ t + offAtUtc p l t} (dayRangeToUtc p l w0).2 ∧
    (∀ s e : ℤ, IsLeast {t : ℤ | w0 ≤ t + offAtUtc p l t} s →
      IsLeast {t : ℤ | w0 + 86400 ≤ t + offAtUtc p l t} e →
      (dayRangeToUtc p l w0).2 - (dayRangeToUtc p l w0).1 = e - s) := by
  have h0 := localize_isLeast l p w0 hs hg0
  have h1 := localize_isLeast l p (w0 + 86400) hs hg1
  refine ⟨h0, h1, ?_⟩
  intro s e hls hle
  rw [hls.unique h0, hle.unique h1]
  rfl

/-- C2 witness: a US-Eastern-style zone (base UTC-5, springing forward to
UTC-4 at UTC instant 25200, i.e. 2 a.m. local on the queried day, whose local
midnight is wall second 0).  The computed local day lasts 82800 seconds
(23 hours), not 86400, and both returned bounds are the true first-passage
instants. -/
theorem day_range_true_duration_witness :
    sortedT [(25200, -14400)] = true ∧
    gapFree (-18000) [(25200, -14400)] 0 = true ∧
    gapFree (-18000) [(25200, -14400)] (0 + 86400) = true ∧
    (dayRangeToUtc (-18000) [(25200, -14400)] 0).2 -
      (dayRangeToUtc (-18000) [(25200, -14400)] 0).1 = 82800 ∧
    IsLeast {t : ℤ | (0 : ℤ) ≤ t + offAtUtc (-18000) [(25200, -14400)] t}
      (dayRangeToUtc (-18000) [(25200, -14400)] 0).1 ∧
    IsLeast {t : ℤ | (0 : ℤ) + 86400 ≤ t + offAtUtc (-18000) [(25200, -14400)] t}
      (dayRangeToUtc (-18000) [(25200, -14400)] 0).2 :=
  have h := day_range_true_duration (-18000) [(25200, -14400)] 0
    (by decide) (by decide) (by decide)
  ⟨by decide, by decide, by decide, by decide, h.1, h.2.1⟩
